import Mathlib

/-!
Shallow embedding of the Twelve Labs Langflow components
(`split_video.py` and `pegasus_index.py`): the segmentation algorithm of
`SplitVideoComponent.process_video`, the index resolution of
`PegasusIndexVideo._get_or_create_index`, the polling loop of
`PegasusIndexVideo._wait_for_task_completion`, and the orchestration of
`PegasusIndexVideo.index_videos`.

Time values (video durations, clip boundaries) are modelled as rationals:
the source computes them with Python floats obtained from ffprobe and with
integer clip durations, and all the facts proved here concern exact
arithmetic on such values.  Status-string assignments (`self.status = ...`)
are observability only and are omitted except where an error message becomes
part of a raised exception.
-/

namespace TwelveLabsComponents

/-! ## Segmentation (`split_video.py`) -/

/-- The `last_clip_handling` dropdown of `SplitVideoComponent`:
"Truncate", "Overlap Previous", "Keep Short". -/
inductive LastClipHandling
  | truncate
  | overlapPrevious
  | keepShort
deriving DecidableEq

/-- A clip record as emitted by the clip loop: `clip_index`, `start_time`,
`end_time`, `duration` as stored in the clip's metadata
(`split_video.py` lines 188-214; `end_time` is recorded as computed on line
149 even when `start_time`/`duration` were adjusted by the policy). -/
structure ClipRange where
  clip_index : ℕ
  start_time : ℚ
  end_time : ℚ
  duration : ℚ
deriving DecidableEq

/-- `num_clips = math.ceil(total_duration / clip_duration)`
(`split_video.py` line 112).  `Int.toNat` matches Python `range`, which is
empty for a non-positive argument. -/
def num_clips (total_duration : ℚ) (clip_duration : ℕ) : ℕ :=
  (Int.ceil (total_duration / (clip_duration : ℚ))).toNat

/-- The natural (pre-adjustment) range of clip `i`:
`start_time = i * clip_duration`,
`end_time = min((i + 1) * clip_duration, total_duration)`
(`split_video.py` lines 148-149). -/
def natural_range (total_duration : ℚ) (clip_duration : ℕ) (i : ℕ) : ℚ × ℚ :=
  ((i : ℚ) * clip_duration, min (((i : ℚ) + 1) * clip_duration) total_duration)

/-- Natural duration of clip `i`: `end_time - start_time` before any
last-clip adjustment (`split_video.py` line 150). -/
def natural_duration (total_duration : ℚ) (clip_duration : ℕ) (i : ℕ) : ℚ :=
  (natural_range total_duration clip_duration i).2 -
    (natural_range total_duration clip_duration i).1

/-- One iteration of the clip loop (`split_video.py` lines 147-165): compute
the natural range, apply the last-clip policy when `i` is the final index and
the natural duration falls short of `clip_duration`, then drop the clip when
its (possibly adjusted) duration is below 1 second.  `none` models
`continue`; the ffmpeg invocation itself is abstracted away. -/
def process_clip (total_duration : ℚ) (clip_duration : ℕ)
    (last_clip_handling : LastClipHandling) (n i : ℕ) : Option ClipRange :=
  let start_time : ℚ := (i : ℚ) * clip_duration
  let end_time : ℚ := min (((i : ℚ) + 1) * clip_duration) total_duration
  let duration : ℚ := end_time - start_time
  if i = n - 1 ∧ duration < clip_duration ∧ last_clip_handling = .truncate then
    none
  else
    let adjusted : ℚ × ℚ :=
      if i = n - 1 ∧ duration < clip_duration ∧
          last_clip_handling = .overlapPrevious ∧ 0 < i then
        (total_duration - clip_duration, (clip_duration : ℚ))
      else
        (start_time, duration)
    if adjusted.2 < 1 then none
    else some ⟨i, adjusted.1, end_time, adjusted.2⟩

/-- The list of clip ranges produced by `process_video`
(`split_video.py` lines 147-215), excluding the optional original-video
entry added for `include_original`. -/
def process_video (total_duration : ℚ) (clip_duration : ℕ)
    (last_clip_handling : LastClipHandling) : List ClipRange :=
  (List.range (num_clips total_duration clip_duration)).filterMap
    (process_clip total_duration clip_duration last_clip_handling
      (num_clips total_duration clip_duration))

/-! ## Job tracking (`pegasus_index.py` lines 105-174)

`video_path` below stands for `os.path.basename(video_path)` as interpolated
into the source's message strings. -/

/-- The outcome of one invocation of `_check_task_status` (lines 110-124):
either the retrieved task (its `status`, `getattr(task, 'error',
'Unknown error')` and `video_id` fields), or the exception text when all 5
tenacity attempts (`stop_after_attempt(5)`, `wait_exponential(multiplier=1,
min=5, max=60)`, `reraise=True`) failed to complete the call. -/
inductive CheckResult
  | ok (status : String) (error_field : String) (video_id : String)
  | exn (msg : String)

/-- Terminal outcome of `_wait_for_task_completion`: `ready` is the normal
return (line 146), `aborted` the too-many-consecutive-errors raise
(line 167), `timedOut` the `TimeoutError` raise (line 174), and
`noMoreChecks` the model's answer when the supplied trace of
`_check_task_status` outcomes is too short to reach a terminal state. -/
inductive TaskOutcome
  | ready (video_id : String)
  | aborted (msg : String)
  | timedOut
  | noMoreChecks
deriving DecidableEq

/-- Line 148: the message of the exception raised on status `"failed"`. -/
def task_failed_msg (video_path error_field : String) : String :=
  "Task failed for " ++ video_path ++ ": " ++ error_field

/-- Line 152: the message of the exception raised on status `"error"`. -/
def task_error_msg (video_path error_field : String) : String :=
  "Task encountered an error for " ++ video_path ++ ": " ++ error_field

/-- Line 163: the message recorded by the `except` handler. -/
def check_error_msg (video_path e : String) : String :=
  "Error checking task status for " ++ video_path ++ ": " ++ e

/-- Line 167: the message of the too-many-consecutive-errors exception. -/
def too_many_errors_msg (video_path error_msg : String) : String :=
  "Too many consecutive errors checking task status for " ++ video_path ++
    ": " ++ error_msg

/-- The continuation of one loop iteration: terminate with an outcome, or
loop with updated `retries` / `consecutive_errors` after sleeping
`sleep_seconds`. -/
inductive StepResult
  | done (outcome : TaskOutcome)
  | next (retries consecutive_errors sleep_seconds : ℕ)

/-- The `except` block (lines 161-170): increment `consecutive_errors`, abort
once it reaches `max_consecutive_errors`, otherwise sleep
`sleep_time * (2 ** consecutive_errors)` and continue; `retries` is not
incremented on this path. -/
def error_iteration (video_path : String) (sleep_time max_consecutive_errors : ℕ)
    (e : String) (retries consecutive_errors : ℕ) : StepResult :=
  let consecutive_errors2 := consecutive_errors + 1
  let error_msg := check_error_msg video_path e
  if max_consecutive_errors ≤ consecutive_errors2 then
    .done (.aborted (too_many_errors_msg video_path error_msg))
  else
    .next retries consecutive_errors2 (sleep_time * 2 ^ consecutive_errors2)

/-- One iteration of the `while retries < max_retries` loop (lines 139-170),
given this iteration's `_check_task_status` result.  The `raise` on a
`"failed"` or `"error"` status happens inside the `try` block, so it is
caught by the `except` handler of the very same loop and routed through
`error_iteration`, exactly as in the source. -/
def wait_iteration (video_path : String) (sleep_time max_consecutive_errors : ℕ)
    (check : CheckResult) (retries consecutive_errors : ℕ) : StepResult :=
  match check with
  | .exn e =>
    error_iteration video_path sleep_time max_consecutive_errors e
      retries consecutive_errors
  | .ok status error_field video_id =>
    if status = "ready" then .done (.ready video_id)
    else if status = "failed" then
      error_iteration video_path sleep_time max_consecutive_errors
        (task_failed_msg video_path error_field) retries consecutive_errors
    else if status = "error" then
      error_iteration video_path sleep_time max_consecutive_errors
        (task_error_msg video_path error_field) retries consecutive_errors
    else
      .next (retries + 1) consecutive_errors sleep_time

/-- The loop of `_wait_for_task_completion` (lines 126-174), driven by the
trace of `_check_task_status` outcomes; each iteration consumes exactly one
trace element.  Returns the terminal outcome together with the list of
sleep durations (in seconds) performed before termination. -/
def wait_loop (video_path : String)
    (max_retries sleep_time max_consecutive_errors : ℕ) :
    List CheckResult → ℕ → ℕ → TaskOutcome × List ℕ
  | trace, retries, consecutive_errors =>
    if retries < max_retries then
      match trace with
      | [] => (.noMoreChecks, [])
      | check :: rest =>
        match wait_iteration video_path sleep_time max_consecutive_errors check
            retries consecutive_errors with
        | .done outcome => (outcome, [])
        | .next retries2 consecutive2 sleep_seconds =>
          let r := wait_loop video_path max_retries sleep_time
            max_consecutive_errors rest retries2 consecutive2
          (r.1, sleep_seconds :: r.2)
    else (.timedOut, [])

/-- `_wait_for_task_completion` with its default parameters
(`max_retries = 120`, `sleep_time = 10`, `max_consecutive_errors = 5`),
starting from `retries = 0` and `consecutive_errors = 0`. -/
def wait_for_task_completion (video_path : String) (trace : List CheckResult) :
    TaskOutcome × List ℕ :=
  wait_loop video_path 120 10 5 trace 0 0

/-! ## Index resolution (`pegasus_index.py` lines 67-103) -/

/-- A remote index descriptor: the `id` and `name` attributes read from the
objects returned by the client. -/
structure IndexInfo where
  id : String
  name : String
deriving DecidableEq

/-- The client surface used by `_get_or_create_index`:
`client.index.retrieve(id=...)`, `client.index.list()`, and
`client.index.create(name=..., models=[...])`.  Each call either returns a
value or raises (modelled as `Except.error` carrying the exception text);
`create` receives the model name and the option list of lines 89-97. -/
structure IndexClient where
  retrieve : String → Except String IndexInfo
  list : Except String (List IndexInfo)
  create : String → String → List String → Except String IndexInfo

/-- Name-based resolution (lines 80-100): list all indexes and return the
first whose name equals `index_name`; when none matches, create a new index
with the configured model and options `["visual", "audio"]`.  Any exception
in this block is re-raised unchanged (line 100). -/
def resolve_by_name (client : IndexClient) (index_name model_name : String) :
    Except String (String × String) :=
  match client.list with
  | .error e => .error e
  | .ok indexes =>
    match indexes.find? (fun idx => idx.name == index_name) with
    | some idx => .ok (idx.id, idx.name)
    | none =>
      match client.create index_name model_name ["visual", "audio"] with
      | .error e => .error e
      | .ok index => .ok (index.id, index.name)

/-- `_get_or_create_index` (lines 67-103).  `none` models an `index_id` or
`index_name` attribute that is absent or empty (the Python truthiness tests
of lines 71, 76 and 80). -/
def get_or_create_index (client : IndexClient)
    (index_id index_name : Option String) (model_name : String) :
    Except String (String × String) :=
  match index_id with
  | some iid =>
    match client.retrieve iid with
    | .ok index => .ok (iid, index.name)
    | .error _ =>
      match index_name with
      | none =>
        .error "Invalid index ID provided and no index name specified for fallback."
      | some nm => resolve_by_name client nm model_name
  | none =>
    match index_name with
    | some nm => resolve_by_name client nm model_name
    | none => .error "Either index_name or index_id must be provided"

/-! ## Data records and the result merger -/

/-- A Python value stored in a `Data` payload (only the shapes these
components touch). -/
inductive PyVal
  | str (s : String)
  | int (n : ℤ)
  | dict (entries : List (String × PyVal))

/-- Python dict lookup (`d.get(k)` / `k in d`), on an insertion-ordered
association list. -/
def dict_get (d : List (String × PyVal)) (k : String) : Option PyVal :=
  match d.find? (fun kv => kv.1 == k) with
  | some kv => some kv.2
  | none => none

/-- Python `d[k] = v`: replace the value of an existing key, otherwise
append the new key at the end. -/
def dict_set (d : List (String × PyVal)) (k : String) (v : PyVal) :
    List (String × PyVal) :=
  match d with
  | [] => [(k, v)]
  | (k2, v2) :: rest =>
    if k2 == k then (k2, v) :: rest
    else (k2, v2) :: dict_set rest k v

/-- Python `d.update(kvs)`. -/
def dict_update (d : List (String × PyVal)) (kvs : List (String × PyVal)) :
    List (String × PyVal) :=
  kvs.foldl (fun acc kv => dict_set acc kv.1 kv.2) d

/-- A Langflow `Data` object, reduced to its `data` mapping as used by these
components. -/
structure PyData where
  data : List (String × PyVal)

/-- The metadata merge of `index_videos` (lines 269-280): with
`video_info = data_item.data`, set `video_info['metadata']` to a fresh empty
dict when it is missing or not a dict, then
`video_info['metadata'].update(...)` with the three new keys. -/
def merge_video_info (video_info : List (String × PyVal))
    (video_id index_id index_name : String) : List (String × PyVal) :=
  let video_info2 :=
    match dict_get video_info "metadata" with
    | none => dict_set video_info "metadata" (.dict [])
    | some (.dict _) => video_info
    | some _ => dict_set video_info "metadata" (.dict [])
  match dict_get video_info2 "metadata" with
  | some (.dict m) =>
    dict_set video_info2 "metadata"
      (.dict (dict_update m [("video_id", .str video_id),
        ("index_id", .str index_id), ("index_name", .str index_name)]))
  | _ => video_info2

/-- Lines 269-283 for one job that reached status `"ready"`: the source
mutates `data_item.data` through the alias `video_info` and then wraps the
very same dict in a new `Data` object.  The explicit-state translation
returns the post-state of the input item together with the emitted
`updated_data_item`; their `data` mappings are one and the same object. -/
def result_merger_step (data_item : PyData)
    (video_id index_id index_name : String) : PyData × PyData :=
  let merged := merge_video_info data_item.data video_id index_id index_name
  (⟨merged⟩, ⟨merged⟩)

/-! ## `index_videos` orchestration (`pegasus_index.py` lines 188-292) -/

/-- A validated element of `videodata` together with the behaviour of the
external calls made for it: its payload `data`, its path, the outcome of
`client.task.create` for it (line 242, a task id or an exception), and the
`_check_task_status` outcomes its polling observes. -/
structure ValidVideo where
  data : List (String × PyVal)
  video_path : String
  upload : Except String String
  trace : List CheckResult

/-- One element of the `videodata` input.  `invalid` covers every item the
validation loop skips (lines 213-232: not a `Data` instance, `data` not a
dict, missing or non-string path, file not found). -/
inductive VideoItem
  | invalid
  | valid (v : ValidVideo)

/-- `index_videos` (lines 188-292).  `Except.error` models an exception that
escapes the method and aborts the run.  On line 249,
`ThreadPoolExecutor(max_workers=min(10, len(upload_tasks)))` raises
`ValueError("max_workers must be greater than 0")` when `upload_tasks` is
empty, per the Python standard library; every per-job exception inside the
pool (upload already excluded such clips; here: task failure propagated by
`future.result()`) is caught on line 284 and only skips that clip. -/
def index_videos (api_key : String) (index_id index_name : Option String)
    (model_name : String) (client : IndexClient)
    (videodata : List VideoItem) : Except String (List PyData) :=
  if videodata.isEmpty then .ok []
  else if api_key = "" then .error "Twelve Labs API Key is required."
  else if index_id.isNone ∧ index_name.isNone then
    .error "Either index_name or index_id must be provided"
  else
    match get_or_create_index client index_id index_name model_name with
    | .error e => .error e
    | .ok (iid, iname) =>
      let valid_videos : List ValidVideo := videodata.filterMap (fun item =>
        match item with
        | .invalid => none
        | .valid v => some v)
      if valid_videos.isEmpty then .ok []
      else
        let upload_tasks : List (ValidVideo × String) :=
          valid_videos.filterMap (fun v =>
            match v.upload with
            | .error _ => none
            | .ok task_id => some (v, task_id))
        if upload_tasks.isEmpty then
          .error "max_workers must be greater than 0"
        else
          .ok (upload_tasks.filterMap (fun vt =>
            match (wait_for_task_completion vt.1.video_path vt.1.trace).1 with
            | .ready video_id =>
              some (result_merger_step ⟨vt.1.data⟩ video_id iid iname).2
            | _ => none))

end TwelveLabsComponents

namespace TwelveLabsComponents

/-! ## Supporting lemmas -/

/-- The clip count computed on line 112 is the exact ceiling of
`total_duration / clip_duration`: the least clip count whose combined span
covers the whole video. -/
lemma num_clips_bounds (total_duration : ℚ) (clip_duration : ℕ)
    (htot : 0 < total_duration) (hcd : 0 < clip_duration) :
    total_duration ≤ (num_clips total_duration clip_duration : ℚ) * clip_duration ∧
      ((num_clips total_duration clip_duration : ℚ) - 1) * clip_duration <
        total_duration := by
  have hcdq : (0 : ℚ) < (clip_duration : ℚ) := by exact_mod_cast hcd
  have hq : 0 < total_duration / (clip_duration : ℚ) := div_pos htot hcdq
  have hpos : 0 < ⌈total_duration / (clip_duration : ℚ)⌉ := Int.ceil_pos.mpr hq
  have hkey : (num_clips total_duration clip_duration : ℚ) =
      ((⌈total_duration / (clip_duration : ℚ)⌉ : ℤ) : ℚ) := by
    rw [num_clips]
    exact_mod_cast congrArg (fun z : ℤ => (z : ℚ)) (Int.toNat_of_nonneg hpos.le)
  constructor
  · rw [hkey]
    exact (div_le_iff₀ hcdq).mp (Int.le_ceil _)
  · rw [hkey]
    have h1 : ((⌈total_duration / (clip_duration : ℚ)⌉ : ℤ) : ℚ) <
        total_duration / (clip_duration : ℚ) + 1 := Int.ceil_lt_add_one _
    have h2 : ((⌈total_duration / (clip_duration : ℚ)⌉ : ℤ) : ℚ) - 1 <
        total_duration / (clip_duration : ℚ) := by linarith
    calc (((⌈total_duration / (clip_duration : ℚ)⌉ : ℤ) : ℚ) - 1) * clip_duration
        < (total_duration / (clip_duration : ℚ)) * clip_duration := by
          exact mul_lt_mul_of_pos_right h2 hcdq
      _ = total_duration := by field_simp

/-- Every clip record emitted by an iteration of the clip loop carries the
loop index as its `clip_index`. -/
lemma process_clip_clip_index {total_duration : ℚ} {clip_duration : ℕ}
    {last : LastClipHandling} {n i : ℕ} {c : ClipRange}
    (h : process_clip total_duration clip_duration last n i = some c) :
    c.clip_index = i := by
  rw [process_clip] at h
  dsimp only at h
  split at h
  · exact Option.noConfusion h
  · split at h <;> split at h <;>
      first
        | exact Option.noConfusion h
        | (cases h; rfl)

/-- Every clip record emitted by an iteration of the clip loop survived the
`duration < 1` guard: its (policy-adjusted) duration is at least 1. -/
lemma process_clip_duration_ge_one {total_duration : ℚ} {clip_duration : ℕ}
    {last : LastClipHandling} {n i : ℕ} {c : ClipRange}
    (h : process_clip total_duration clip_duration last n i = some c) :
    1 ≤ c.duration := by
  rw [process_clip] at h
  dsimp only at h
  split at h
  · exact Option.noConfusion h
  · split at h <;> split at h <;>
      first
        | exact Option.noConfusion h
        | (rename_i hlt; cases h; exact le_of_not_lt hlt)

lemma num_clips_95_30 : num_clips 95 30 = 4 := by
  have h4 : ⌈(95 : ℚ) / 30⌉ = 4 := by
    rw [Int.ceil_eq_iff]
    norm_num
  simp [num_clips, h4]

lemma process_video_95_30_keepShort : process_video 95 30 .keepShort =
    [⟨0, 0, 30, 30⟩, ⟨1, 30, 60, 30⟩, ⟨2, 60, 90, 30⟩, ⟨3, 90, 95, 5⟩] := by
  rw [process_video, num_clips_95_30]
  norm_num [List.range_succ, List.filterMap_cons, List.filterMap_nil,
    process_clip, min_def]
  all_goals simp

lemma process_video_95_30_truncate : process_video 95 30 .truncate =
    [⟨0, 0, 30, 30⟩, ⟨1, 30, 60, 30⟩, ⟨2, 60, 90, 30⟩] := by
  rw [process_video, num_clips_95_30]
  norm_num [List.range_succ, List.filterMap_cons, List.filterMap_nil,
    process_clip, min_def]

lemma process_video_95_30_overlap : process_video 95 30 .overlapPrevious =
    [⟨0, 0, 30, 30⟩, ⟨1, 30, 60, 30⟩, ⟨2, 60, 90, 30⟩, ⟨3, 65, 95, 30⟩] := by
  rw [process_video, num_clips_95_30]
  norm_num [List.range_succ, List.filterMap_cons, List.filterMap_nil,
    process_clip, min_def]
  all_goals simp

lemma num_clips_305_30 : num_clips (61 / 2) 30 = 2 := by
  have h2 : ⌈(61 / 2 : ℚ) / 30⌉ = 2 := by
    rw [Int.ceil_eq_iff]
    norm_num
  simp [num_clips, h2]

lemma process_video_305_30_overlap :
    process_video (61 / 2) 30 .overlapPrevious =
      [⟨0, 0, 30, 30⟩, ⟨1, 1 / 2, 61 / 2, 30⟩] := by
  rw [process_video, num_clips_305_30]
  norm_num [List.range_succ, List.filterMap_cons, List.filterMap_nil,
    process_clip, min_def]
  all_goals simp

/-! ## Claim theorems -/

/-- C1: the claim says that when a status check returns `"failed"` or
`"error"` the job immediately transitions to a terminal FAILED/ERROR state,
with no further status checks and the remote error message as the recorded
reason.  The code contradicts this: the `raise` on lines 150/154 sits inside
the `try` block of the same loop, so it is caught by the `except` handler on
line 161, counted as a consecutive error, and the loop keeps polling.  At the
failing input below the task reports `"failed"` once and `"ready"` next, and
the loop returns READY after a 20-second backoff sleep instead of
terminating FAILED at the first observation. -/
theorem c1_failed_status_does_not_terminate :
    wait_for_task_completion "video.mp4"
        [.ok "failed" "remote error" "", .ok "ready" "" "vid-1"] =
      (.ready "vid-1", [20]) ∧
    wait_iteration "video.mp4" 10 5 (.ok "failed" "remote error" "") 0 0 =
      .next 0 1 20 := ⟨rfl, rfl⟩

/-- C6: the Job Tracker terminal behaviours.  A status sequence
`queued, queued, ready` terminates READY after exactly 2 non-terminal polls
(two 10-second sleeps); a job observing a non-terminal status for 120 polls
terminates TIMED_OUT; and five consecutive inner-retry exhaustions terminate
ABORTED with the too-many-consecutive-errors reason, after sleeping
`sleep_time * 2 ^ consecutive_errors` = 20, 40, 80, 160 seconds between the
error iterations. -/
theorem c6_job_tracker_terminal_behaviours :
    wait_for_task_completion "video.mp4"
        [.ok "queued" "" "", .ok "queued" "" "", .ok "ready" "" "vid-1"] =
      (.ready "vid-1", [10, 10]) ∧
    wait_for_task_completion "video.mp4"
        (List.replicate 120 (.ok "queued" "" "")) =
      (.timedOut, List.replicate 120 10) ∧
    wait_for_task_completion "video.mp4"
        (List.replicate 5 (.exn "connection reset")) =
      (.aborted (too_many_errors_msg "video.mp4"
          (check_error_msg "video.mp4" "connection reset")),
        [10 * 2 ^ 1, 10 * 2 ^ 2, 10 * 2 ^ 3, 10 * 2 ^ 4]) :=
  ⟨rfl, rfl, rfl⟩

/-- C10: the consecutive-error counter is never reset after a successful
status check: every loop iteration either keeps the counter or increments
it, so five inner-retry exhaustions interleaved with successful non-terminal
polls still abort the job with the too-many-consecutive-errors reason. -/
theorem c10_error_counter_never_reset :
    (∀ (video_path : String) (sleep_time max_consecutive_errors : ℕ)
        (check : CheckResult) (retries consecutive_errors : ℕ)
        (retries2 consecutive2 sleep_seconds : ℕ),
      wait_iteration video_path sleep_time max_consecutive_errors check
          retries consecutive_errors = .next retries2 consecutive2 sleep_seconds →
      consecutive_errors ≤ consecutive2) ∧
    wait_for_task_completion "video.mp4"
        [.exn "e1", .ok "queued" "" "", .exn "e2", .ok "queued" "" "",
          .exn "e3", .ok "queued" "" "", .exn "e4", .ok "queued" "" "",
          .exn "e5"] =
      (.aborted (too_many_errors_msg "video.mp4"
          (check_error_msg "video.mp4" "e5")),
        [20, 10, 40, 10, 80, 10, 160, 10]) := by
  constructor
  · intro vp st mc check r ce r2 c2 ss h
    cases check with
    | exn e =>
      simp only [wait_iteration, error_iteration] at h
      split at h
      · exact StepResult.noConfusion h
      · injection h
        omega
    | ok status ef vid =>
      simp only [wait_iteration, error_iteration] at h
      split_ifs at h <;>
        first
          | exact StepResult.noConfusion h
          | (injection h; omega)
  · rfl

/-- Witness for C10: a concrete error iteration carries the counter from 0
to 1, never back to 0. -/
theorem c10_error_counter_never_reset_witness :
    wait_iteration "video.mp4" 10 5 (.exn "e1") 0 0 = .next 0 1 20 ∧
      (0 : ℕ) ≤ 1 :=
  ⟨rfl, c10_error_counter_never_reset.1 "video.mp4" 10 5 (.exn "e1") 0 0 0 1 20 rfl⟩

/-- Emitted clips outside the Overlap Previous policy keep their natural
duration: the `(start_time, duration)` rebinding of lines 157-160 is the
only adjustment, and it requires `last_clip_handling == "Overlap Previous"`. -/
lemma process_clip_natural_duration {total_duration : ℚ} {clip_duration : ℕ}
    {last : LastClipHandling} {n i : ℕ} {c : ClipRange}
    (hlast : last ≠ .overlapPrevious)
    (h : process_clip total_duration clip_duration last n i = some c) :
    c.duration = natural_duration total_duration clip_duration c.clip_index := by
  have hidx := process_clip_clip_index h
  rw [process_clip] at h
  dsimp only at h
  split at h
  · exact Option.noConfusion h
  · split at h
    · rename_i hcond
      exact absurd hcond.2.2.1 hlast
    · split at h
      · exact Option.noConfusion h
      · cases h
        simp [natural_duration, natural_range]

/-- C2: for every `total_duration > 0` and `clip_duration > 0` the Segmenter
computes `num_clips = ceil(total_duration / clip_duration)` — equivalently,
`num_clips` is the unique count with
`(num_clips - 1) * clip_duration < total_duration ≤ num_clips * clip_duration`
— and the natural (pre-adjustment) range of clip `i` is
`[i * clip_duration, min((i + 1) * clip_duration, total_duration))`; in
particular `total_duration = 95`, `clip_duration = 30` gives 4 ranges
`[0,30), [30,60), [60,90), [90,95)`. -/
theorem c2_num_clips_and_natural_ranges (total_duration : ℚ)
    (clip_duration : ℕ) (htot : 0 < total_duration) (hcd : 0 < clip_duration) :
    (num_clips total_duration clip_duration =
        (⌈total_duration / (clip_duration : ℚ)⌉).toNat ∧
      total_duration ≤
        (num_clips total_duration clip_duration : ℚ) * clip_duration ∧
      ((num_clips total_duration clip_duration : ℚ) - 1) * clip_duration <
        total_duration) ∧
    (∀ i, natural_range total_duration clip_duration i =
      ((i : ℚ) * clip_duration,
        min (((i : ℚ) + 1) * clip_duration) total_duration)) ∧
    (num_clips 95 30 = 4 ∧
      (List.range (num_clips 95 30)).map (natural_range 95 30) =
        [(0, 30), (30, 60), (60, 90), (90, 95)]) := by
  refine ⟨⟨rfl, num_clips_bounds total_duration clip_duration htot hcd⟩,
    fun i => rfl, num_clips_95_30, ?_⟩
  rw [num_clips_95_30]
  norm_num [natural_range, List.range_succ, min_def]

/-- Witness for C2 at `total_duration = 95`, `clip_duration = 30`. -/
theorem c2_num_clips_and_natural_ranges_witness :
    (0 : ℚ) < 95 ∧ 0 < 30 ∧ num_clips 95 30 = 4 :=
  ⟨by norm_num, by norm_num,
    (c2_num_clips_and_natural_ranges 95 30 (by norm_num) (by norm_num)).2.2.1⟩

/-- C3 counterexample: the claim says a clip whose natural duration is below
1 second is dropped under every policy.  With `total_duration = 30.5` and
`clip_duration = 30` under Overlap Previous, the final clip has natural
duration 1/2 < 1, yet the output retains it (recomputed to
`[1/2, 61/2)` with duration 30), because the source tests `duration < 1`
only after the policy adjustment has replaced the natural duration. -/
theorem c3_sub_second_clip_retained_under_overlap :
    natural_duration (61 / 2) 30 1 < 1 ∧
      ⟨1, 1 / 2, 61 / 2, 30⟩ ∈ process_video (61 / 2) 30 .overlapPrevious := by
  constructor
  · norm_num [natural_duration, natural_range, min_def]
  · rw [process_video_305_30_overlap]
    simp

/-- C3 (amended): a clip is dropped when its duration *after* the last-clip
policy adjustment is below 1 second; under Truncate and Keep Short the
emitted duration equals the natural duration, so those policies do drop all
sub-second natural clips, while Overlap Previous may retain a final clip of
sub-second natural duration by stretching it to `clip_duration`. -/
theorem c3_dropped_below_one_second_after_adjustment (total_duration : ℚ)
    (clip_duration : ℕ) (last : LastClipHandling) :
    (∀ c ∈ process_video total_duration clip_duration last, 1 ≤ c.duration) ∧
    (last = .truncate ∨ last = .keepShort →
      ∀ c ∈ process_video total_duration clip_duration last,
        c.duration =
          natural_duration total_duration clip_duration c.clip_index) := by
  constructor
  · intro c hc
    obtain ⟨i, _, hsome⟩ := List.mem_filterMap.mp hc
    exact process_clip_duration_ge_one hsome
  · intro hpol c hc
    obtain ⟨i, _, hsome⟩ := List.mem_filterMap.mp hc
    have hlast : last ≠ .overlapPrevious := by
      rcases hpol with h | h <;> subst h <;> simp
    exact process_clip_natural_duration hlast hsome

/-- Witness for C3 (amended) at the 95s/30s Keep Short example: the first
output clip has duration 30 ≥ 1, equal to its natural duration. -/
theorem c3_dropped_below_one_second_after_adjustment_witness :
    (⟨0, 0, 30, 30⟩ : ClipRange) ∈ process_video 95 30 .keepShort ∧
      (1 : ℚ) ≤ (ClipRange.mk 0 0 30 30).duration ∧
      (ClipRange.mk 0 0 30 30).duration =
        natural_duration 95 30 (ClipRange.mk 0 0 30 30).clip_index := by
  have hm : (⟨0, 0, 30, 30⟩ : ClipRange) ∈ process_video 95 30 .keepShort := by
    rw [process_video_95_30_keepShort]
    simp
  exact ⟨hm,
    (c3_dropped_below_one_second_after_adjustment 95 30 .keepShort).1 _ hm,
    (c3_dropped_below_one_second_after_adjustment 95 30 .keepShort).2
      (Or.inr rfl) _ hm⟩

/-- C9: under Truncate a final clip whose natural duration falls short of
`clip_duration` is dropped: no output clip carries the final index; with
`total_duration = 95` and `clip_duration = 30`, clip 3 (`[90,95)`, duration
5) is dropped and exactly the 3 full clips remain. -/
theorem c9_truncate_drops_short_final_clip (total_duration : ℚ)
    (clip_duration : ℕ)
    (hshort : natural_duration total_duration clip_duration
        (num_clips total_duration clip_duration - 1) < clip_duration) :
    (∀ c ∈ process_video total_duration clip_duration .truncate,
      c.clip_index ≠ num_clips total_duration clip_duration - 1) ∧
    process_video 95 30 .truncate =
      [⟨0, 0, 30, 30⟩, ⟨1, 30, 60, 30⟩, ⟨2, 60, 90, 30⟩] := by
  refine ⟨?_, process_video_95_30_truncate⟩
  intro c hc heq
  obtain ⟨i, _, hsome⟩ := List.mem_filterMap.mp hc
  have hidx := process_clip_clip_index hsome
  rw [hidx] at heq
  subst heq
  rw [process_clip] at hsome
  dsimp only at hsome
  rw [if_pos ⟨rfl, by simpa [natural_duration, natural_range] using hshort,
    rfl⟩] at hsome
  exact Option.noConfusion hsome

/-- Witness for C9 at `total_duration = 95`, `clip_duration = 30`. -/
theorem c9_truncate_drops_short_final_clip_witness :
    natural_duration 95 30 (num_clips 95 30 - 1) < 30 ∧
      process_video 95 30 .truncate =
        [⟨0, 0, 30, 30⟩, ⟨1, 30, 60, 30⟩, ⟨2, 60, 90, 30⟩] := by
  have hs : natural_duration 95 30 (num_clips 95 30 - 1) < 30 := by
    rw [num_clips_95_30]
    norm_num [natural_duration, natural_range, min_def]
  exact ⟨hs, (c9_truncate_drops_short_final_clip 95 30 hs).2⟩

/-- C4: under Overlap Previous, whenever more than one clip exists and the
final clip's natural duration falls short of `clip_duration`, the final
output range is recomputed as
`[total_duration - clip_duration, total_duration)` with full `clip_duration`
length; with `total_duration = 95` and `clip_duration = 30`, clip 3 becomes
`[65, 95)` rather than `[90, 95)`. -/
theorem c4_overlap_previous_recomputes_final (total_duration : ℚ)
    (clip_duration : ℕ) (htot : 0 < total_duration) (hcd : 0 < clip_duration)
    (hmany : 1 < num_clips total_duration clip_duration)
    (hshort : natural_duration total_duration clip_duration
        (num_clips total_duration clip_duration - 1) < clip_duration) :
    (process_video total_duration clip_duration .overlapPrevious).getLast? =
      some ⟨num_clips total_duration clip_duration - 1,
        total_duration - clip_duration, total_duration, (clip_duration : ℚ)⟩ ∧
    process_video 95 30 .overlapPrevious =
      [⟨0, 0, 30, 30⟩, ⟨1, 30, 60, 30⟩, ⟨2, 60, 90, 30⟩, ⟨3, 65, 95, 30⟩] := by
  refine ⟨?_, process_video_95_30_overlap⟩
  set n := num_clips total_duration clip_duration with hn
  have hcdq1 : (1 : ℚ) ≤ (clip_duration : ℚ) := by exact_mod_cast hcd
  have hcover := (num_clips_bounds total_duration clip_duration htot hcd).1
  rw [← hn] at hcover
  have h1n : (1 : ℕ) ≤ n := by omega
  have hend : min ((((n - 1 : ℕ) : ℚ) + 1) * clip_duration) total_duration =
      total_duration := by
    apply min_eq_right
    have hcast : (((n - 1 : ℕ)) : ℚ) + 1 = (n : ℚ) := by
      rw [Nat.cast_sub h1n]
      push_cast
      ring
    rw [hcast]
    exact hcover
  have hdur : (((n - 1 : ℕ) : ℚ) + 1) * (clip_duration : ℚ) ⊓ total_duration -
      ((n - 1 : ℕ) : ℚ) * (clip_duration : ℚ) < (clip_duration : ℚ) := by
    simpa [natural_duration, natural_range] using hshort
  have hC1 : ¬((n - 1 : ℕ) = n - 1 ∧
      (((n - 1 : ℕ) : ℚ) + 1) * (clip_duration : ℚ) ⊓ total_duration -
        ((n - 1 : ℕ) : ℚ) * (clip_duration : ℚ) < (clip_duration : ℚ) ∧
      LastClipHandling.overlapPrevious = LastClipHandling.truncate) := by
    rintro ⟨-, -, hcon⟩
    exact LastClipHandling.noConfusion hcon
  have hC2 : ((n - 1 : ℕ) = n - 1 ∧
      (((n - 1 : ℕ) : ℚ) + 1) * (clip_duration : ℚ) ⊓ total_duration -
        ((n - 1 : ℕ) : ℚ) * (clip_duration : ℚ) < (clip_duration : ℚ) ∧
      LastClipHandling.overlapPrevious = LastClipHandling.overlapPrevious ∧
      0 < n - 1) := ⟨rfl, hdur, rfl, by omega⟩
  have hf : process_clip total_duration clip_duration .overlapPrevious n
      (n - 1) = some ⟨n - 1, total_duration - clip_duration, total_duration,
        (clip_duration : ℚ)⟩ := by
    rw [process_clip]
    dsimp only
    rw [if_neg hC1, if_pos hC2, if_neg (not_lt.mpr hcdq1)]
    rw [hend]
  obtain ⟨m, hm⟩ : ∃ m, n = m + 1 := ⟨n - 1, by omega⟩
  rw [process_video, ← hn, hm, List.range_succ, List.filterMap_append]
  have hm1 : m = n - 1 := by omega
  have hn1 : n - 1 + 1 = n := by omega
  rw [hm1, hn1]
  simp only [List.filterMap_cons, List.filterMap_nil, hf]
  exact List.getLast?_concat _

/-- Witness for C4 at `total_duration = 95`, `clip_duration = 30`. -/
theorem c4_overlap_previous_recomputes_final_witness :
    (0 : ℚ) < 95 ∧ 1 < num_clips 95 30 ∧
      natural_duration 95 30 (num_clips 95 30 - 1) < 30 ∧
      process_video 95 30 .overlapPrevious =
        [⟨0, 0, 30, 30⟩, ⟨1, 30, 60, 30⟩, ⟨2, 60, 90, 30⟩, ⟨3, 65, 95, 30⟩] := by
  have hmany : 1 < num_clips 95 30 := by
    rw [num_clips_95_30]
    norm_num
  have hshort : natural_duration 95 30 (num_clips 95 30 - 1) < 30 := by
    rw [num_clips_95_30]
    norm_num [natural_duration, natural_range, min_def]
  exact ⟨by norm_num, hmany, hshort,
    (c4_overlap_previous_recomputes_final 95 30 (by norm_num) (by norm_num)
      hmany hshort).2⟩

/-- C7: the resolution order of `_get_or_create_index`.  (1) With an
`index_id`, a successful direct lookup returns `(index_id, index.name)`
regardless of `index_name`; (2) on lookup failure without an `index_name`
the call fails; (3) on lookup failure with an `index_name` it falls back to
name-based resolution; (4) with only an `index_name` it resolves by name
directly; (5) name resolution returns the id and name of the first
exact-name match among the listed indexes; (6) with no match it creates a
new index with the given name and the `visual`/`audio` options; (7) with
neither identifier the call fails fast. -/
theorem c7_index_resolution_order (client : IndexClient)
    (iid nm model_name : String) :
    (∀ index, client.retrieve iid = .ok index →
      ∀ index_name, get_or_create_index client (some iid) index_name
        model_name = .ok (iid, index.name)) ∧
    (∀ e, client.retrieve iid = .error e →
      get_or_create_index client (some iid) none model_name =
        .error
          "Invalid index ID provided and no index name specified for fallback.") ∧
    (∀ e, client.retrieve iid = .error e →
      get_or_create_index client (some iid) (some nm) model_name =
        resolve_by_name client nm model_name) ∧
    (get_or_create_index client none (some nm) model_name =
      resolve_by_name client nm model_name) ∧
    (∀ indexes index, client.list = .ok indexes →
      indexes.find? (fun idx => idx.name == nm) = some index →
      resolve_by_name client nm model_name = .ok (index.id, index.name)) ∧
    (∀ indexes, client.list = .ok indexes →
      indexes.find? (fun idx => idx.name == nm) = none →
      resolve_by_name client nm model_name =
        (match client.create nm model_name ["visual", "audio"] with
          | .error e => .error e
          | .ok index => .ok (index.id, index.name))) ∧
    (get_or_create_index client none none model_name =
      .error "Either index_name or index_id must be provided") := by
  refine ⟨?_, ?_, ?_, rfl, ?_, ?_, rfl⟩
  · intro index h index_name
    simp [get_or_create_index, h]
  · intro e h
    simp [get_or_create_index, h]
  · intro e h
    simp [get_or_create_index, h]
  · intro indexes index hl hf
    simp [resolve_by_name, hl, hf]
  · intro indexes hl hf
    simp [resolve_by_name, hl, hf]

/-- Witness for C7: a client whose direct lookup succeeds resolves to the
given id and the looked-up name. -/
theorem c7_index_resolution_order_witness :
    get_or_create_index
        ⟨fun _ => .ok ⟨"id-0", "name-0"⟩, .ok [],
          fun created_name _ _ => .ok ⟨"created-id", created_name⟩⟩
        (some "given-id") none "pegasus1.2" = .ok ("given-id", "name-0") :=
  (c7_index_resolution_order
      ⟨fun _ => .ok ⟨"id-0", "name-0"⟩, .ok [],
        fun created_name _ _ => .ok ⟨"created-id", created_name⟩⟩
      "given-id" "unused" "pegasus1.2").1 ⟨"id-0", "name-0"⟩ rfl none

/-- C8 counterexample: the claim says the clip record is never mutated after
the Segmenter and the merger extends the metadata "without modifying the
input clip's own data".  The source instead updates
`data_item.data['metadata']` in place through the alias `video_info`
(lines 269-280): after the merger step the input item's mapping has the
three new keys, so its post-state differs from its pre-state. -/
theorem c8_counterexample_input_mutated :
    (result_merger_step
        ⟨[("text", .str "clip_000.mp4"),
          ("metadata", .dict [("source", .str "video.mp4")])]⟩
        "vid-1" "idx-1" "my-index").1 ≠
      ⟨[("text", .str "clip_000.mp4"),
        ("metadata", .dict [("source", .str "video.mp4")])]⟩ := by
  simp [result_merger_step, merge_video_info, dict_get, dict_set, dict_update]

/-- C8 (amended): for a clip whose metadata mapping is a dict `m`, the
merger extends that mapping in place with
`{video_id, index_id, index_name}`; the emitted OutputAsset and the
post-state of the input item share one and the same extended mapping, so the
input clip's record is mutated rather than left unchanged. -/
theorem c8_merger_extends_shared_mapping (data_item : PyData)
    (video_id index_id index_name : String) (m : List (String × PyVal))
    (hm : dict_get data_item.data "metadata" = some (.dict m)) :
    (result_merger_step data_item video_id index_id index_name).2 =
      ⟨dict_set data_item.data "metadata" (.dict (dict_update m
        [("video_id", .str video_id), ("index_id", .str index_id),
          ("index_name", .str index_name)]))⟩ ∧
    (result_merger_step data_item video_id index_id index_name).1 =
      (result_merger_step data_item video_id index_id index_name).2 := by
  constructor
  · simp [result_merger_step, merge_video_info, hm]
  · rfl

/-- Witness for C8 (amended) on a concrete item. -/
theorem c8_merger_extends_shared_mapping_witness :
    dict_get [("metadata", PyVal.dict [])] "metadata" =
        some (.dict []) ∧
      (result_merger_step ⟨[("metadata", PyVal.dict [])]⟩
          "vid-1" "idx-1" "my-index").2 =
        ⟨dict_set [("metadata", PyVal.dict [])] "metadata"
          (.dict (dict_update []
            [("video_id", .str "vid-1"), ("index_id", .str "idx-1"),
              ("index_name", .str "my-index")]))⟩ :=
  ⟨rfl, (c8_merger_extends_shared_mapping ⟨[("metadata", PyVal.dict [])]⟩
    "vid-1" "idx-1" "my-index" [] rfl).1⟩

/-- C5: the claim says every post-resolution error is isolated to its own
clip and the run always returns the successes, "including the case where
every upload fails and the returned list is empty".  The code contradicts
that last case: with one valid video whose upload raises, `upload_tasks` is
empty and `ThreadPoolExecutor(max_workers=min(10, 0))` raises
`ValueError("max_workers must be greater than 0")`, aborting the run instead
of returning `[]` (first conjunct).  When at least one upload succeeds the
per-clip isolation does hold (second conjunct: the failed upload is skipped
and the successful clip is returned). -/
theorem c5_all_uploads_failed_aborts_run :
    (index_videos "key" (some "idx-1") none "pegasus1.2"
        ⟨fun _ => .ok ⟨"idx-1", "my-index"⟩, .ok [],
          fun created_name _ _ => .ok ⟨"created-id", created_name⟩⟩
        [.valid ⟨[("text", .str "/tmp/clip_000.mp4")], "clip_000.mp4",
          .error "connection refused", []⟩] =
      .error "max_workers must be greater than 0") ∧
    (index_videos "key" (some "idx-1") none "pegasus1.2"
        ⟨fun _ => .ok ⟨"idx-1", "my-index"⟩, .ok [],
          fun created_name _ _ => .ok ⟨"created-id", created_name⟩⟩
        [.valid ⟨[("text", .str "/tmp/clip_000.mp4")], "clip_000.mp4",
          .error "connection refused", []⟩,
          .valid ⟨[("text", .str "/tmp/clip_001.mp4")], "clip_001.mp4",
            .ok "task-1", [.ok "ready" "" "vid-1"]⟩] =
      .ok [⟨[("text", .str "/tmp/clip_001.mp4"),
        ("metadata", .dict [("video_id", .str "vid-1"),
          ("index_id", .str "idx-1"),
          ("index_name", .str "my-index")])]⟩]) := ⟨rfl, rfl⟩

end TwelveLabsComponents
